import Mathlib

/-!
Shallow embedding of `public/js/debug.js` of the memo_ai repository:
the debug/telemetry module (API-call recorder, debug-snapshot renderer,
clipboard exports, and debug-mode UI gating), together with proofs of
the specified properties.
-/

namespace MemoAi

/-- JSON values, the payloads flowing through the recorder and renderer. -/
inductive JValue where
  | null : JValue
  | bool (b : Bool) : JValue
  | num (n : Int) : JValue
  | str (s : String) : JValue
  | arr (xs : List JValue) : JValue
  | obj (fields : List (String × JValue)) : JValue

/-! ### Decimal rendering of numbers (JS template-literal number stringification) -/

/-- The decimal digit character for a digit value below ten. -/
def digitChar : Nat → Char
  | 0 => '0' | 1 => '1' | 2 => '2' | 3 => '3' | 4 => '4'
  | 5 => '5' | 6 => '6' | 7 => '7' | 8 => '8' | _ => '9'

/-- Inverse of `digitChar` on digit characters. -/
def charToDigit (c : Char) : Nat := c.toNat - 48

/-- Most-significant-first decimal digits of a natural number. -/
def toDecDigits (n : Nat) : List Nat :=
  if _h : n < 10 then [n]
  else toDecDigits (n / 10) ++ [n % 10]
decreasing_by exact Nat.div_lt_self (by omega) (by omega)

/-- Recompose a natural number from most-significant-first decimal digits. -/
def ofDecDigits (ds : List Nat) : Nat :=
  ds.foldl (fun a d => 10 * a + d) 0

/-- Decimal string of a natural number, as a JS template literal renders it. -/
def natToDec (n : Nat) : String := ⟨(toDecDigits n).map digitChar⟩

/-- Decimal string of an integer, as a JS template literal renders it. -/
def intToDec (i : Int) : String :=
  if i < 0 then "-" ++ natToDec i.natAbs else natToDec i.natAbs

/-- Digit-wise decoder of a decimal string. -/
def decodeDec (s : String) : Nat := ofDecDigits (s.data.map charToDigit)

/-! ### The image-data sanitizer of `recordApiCall`

Model of the stringify-then-parse round-trip whose replacer maps each
string-valued field keyed image_data to a bracketed placeholder carrying
only the length of the string.
-/

/-- The placeholder the recorder stores in place of an image-data string
of the given length. -/
def imagePlaceholder (n : Nat) : String :=
  "[Image: " ++ natToDec n ++ " chars]"

mutual

/-- The sanitization pass of `recordApiCall`: the `JSON.parse(JSON.stringify ...)`
round-trip with the replacer that rewrites string-valued fields keyed
`image_data` to a length placeholder. -/
def sanitizeValue : JValue → JValue
  | .null => .null
  | .bool b => .bool b
  | .num n => .num n
  | .str s => .str s
  | .arr xs => .arr (sanitizeList xs)
  | .obj fs => .obj (sanitizeFields fs)

/-- Sanitization of the elements of a JSON array. -/
def sanitizeList : List JValue → List JValue
  | [] => []
  | x :: xs => sanitizeValue x :: sanitizeList xs

/-- Sanitization of the fields of a JSON object: the replacer fires exactly
on fields keyed `image_data` holding a string. -/
def sanitizeFields : List (String × JValue) → List (String × JValue)
  | [] => []
  | (k, v) :: fs =>
    (match v with
     | .str s => (k, .str (if k = "image_data" then imagePlaceholder s.length else s))
     | w => (k, sanitizeValue w)) :: sanitizeFields fs

end

/-- Whether a JSON value is a string, as the typeof check tests. -/
def isStrB : JValue → Bool
  | .str _ => true
  | _ => false

mutual

/-- Whether a JSON value contains, anywhere, an object field keyed
`image_data` holding a string (the fields the replacer rewrites). -/
def hasImageStr : JValue → Bool
  | .null => false
  | .bool _ => false
  | .num _ => false
  | .str _ => false
  | .arr xs => hasImageStrList xs
  | .obj fs => hasImageStrFields fs

/-- Lifts `hasImageStr` to the elements of an array. -/
def hasImageStrList : List JValue → Bool
  | [] => false
  | x :: xs => hasImageStr x || hasImageStrList xs

/-- Lifts `hasImageStr` to the fields of an object. -/
def hasImageStrFields : List (String × JValue) → Bool
  | [] => false
  | (k, v) :: fs =>
    (k == "image_data" && isStrB v) || hasImageStr v || hasImageStrFields fs

end

/-! ### `JSON.stringify(v, null, 2)` -/

/-- Lowercase hexadecimal digit character. -/
def hexDigit (d : Nat) : Char :=
  if d < 10 then digitChar d
  else match d with
    | 10 => 'a' | 11 => 'b' | 12 => 'c' | 13 => 'd' | 14 => 'e' | _ => 'f'

/-- JSON escaping of one character inside a quoted string. -/
def jsonEscapeChar (c : Char) : List Char :=
  if c = '"' then ['\\', '"']
  else if c = '\\' then ['\\', '\\']
  else if c.toNat = 8 then ['\\', 'b']
  else if c.toNat = 9 then ['\\', 't']
  else if c.toNat = 10 then ['\\', 'n']
  else if c.toNat = 12 then ['\\', 'f']
  else if c.toNat = 13 then ['\\', 'r']
  else if c.toNat < 32 then
    ['\\', 'u', '0', '0', hexDigit (c.toNat / 16), hexDigit (c.toNat % 16)]
  else [c]

/-- JSON quoting of a string. -/
def quoteJson (s : String) : String :=
  ⟨'"' :: (s.data.map jsonEscapeChar).flatten ++ ['"']⟩

/-- The indentation produced by `JSON.stringify` with gap two spaces at the
given depth. -/
def indentN (d : Nat) : String := String.join (List.replicate d "  ")

mutual

/-- Model of `JSON.stringify(v, null, 2)` at nesting depth `d`. -/
def stringifyVal (d : Nat) : JValue → String
  | .null => "null"
  | .bool b => if b then "true" else "false"
  | .num n => intToDec n
  | .str s => quoteJson s
  | .arr [] => "[]"
  | .arr (x :: xs) =>
    "[\n" ++ String.intercalate ",\n" (stringifyArrItems (d + 1) (x :: xs))
    ++ "\n" ++ indentN d ++ "]"
  | .obj [] => "\x7b\x7d"
  | .obj (f :: fs) =>
    "\x7b\n" ++ String.intercalate ",\n" (stringifyObjItems (d + 1) (f :: fs))
    ++ "\n" ++ indentN d ++ "\x7d"

/-- Indented renderings of the elements of an array. -/
def stringifyArrItems (d : Nat) : List JValue → List String
  | [] => []
  | x :: xs => (indentN d ++ stringifyVal d x) :: stringifyArrItems d xs

/-- Indented renderings of the fields of an object. -/
def stringifyObjItems (d : Nat) : List (String × JValue) → List String
  | [] => []
  | (k, v) :: fs =>
    (indentN d ++ quoteJson k ++ ": " ++ stringifyVal d v) :: stringifyObjItems d fs

end

/-- Model of `JSON.stringify(v, null, 2)` as used by the debug module. -/
def jsonStringify2 (v : JValue) : String := stringifyVal 0 v

/-- Model of the global-replace of every left angle bracket by its HTML entity. -/
def escapeLt (s : String) : String :=
  ⟨(s.data.map fun c => if c = '<' then ['&', 'l', 't', ';'] else [c]).flatten⟩

/-! ### JS truthiness helpers on optional strings -/

/-- JS truthiness of an optional string (`null` and the empty string are falsy). -/
def jsStrTruthy : Option String → Bool
  | none => false
  | some s => !(s == "")

/-- Model of the JS expression v-or-default on an optional string. -/
def jsStrOr (v : Option String) (dflt : String) : String :=
  match v with
  | none => dflt
  | some s => if s == "" then dflt else s

/-! ### Data model: process-wide state and server payloads -/

/-- A gated menu element: only its inline `style.display` matters here.
`none` means the inline style was never assigned. -/
structure MenuItem where
  display : Option String

/-- The content container of the debug modal: only its `innerHTML` matters here. -/
structure ContentPane where
  innerHTML : String

/-- The debug modal container: only membership of the `hidden` class matters. -/
structure ModalEl where
  hiddenClass : Bool

/-- The record stored by `recordApiCall` in `window.App.debug.lastApiCall`. -/
structure LastApiCall where
  timestamp : String
  endpoint : String
  method : String
  status : Option Int
  error : Option String
  request : JValue
  response : JValue

/-- Body of a successful `/api/config` response. -/
structure ConfigData where
  debug_mode : Option Bool
  default_system_prompt : Option String

/-- The `cors` field of a debug snapshot. -/
structure CorsInfo where
  allowed_origins : List String
  is_restricted : Bool
  detected_platform : Option String

/-- The `models` field of a debug snapshot. -/
structure ModelsInfo where
  recommended_count : Int
  total_count : Int
  raw_list : List JValue

/-- Body of a successful `/api/debug5075378` response. -/
structure DebugSnapshot where
  timestamp : Option String
  cors : Option CorsInfo
  environment : List (String × String)
  env_vars : Option (List (String × Option String))
  models : Option ModelsInfo

/-- Outcome of one `fetch` of a JSON resource: parsed 2xx body, non-2xx
status, or a thrown network/parse error. -/
inductive FetchResult (α : Type) where
  | success (body : α)
  | httpError (status : Nat) (statusText : String)
  | netError (message : String)

/-- The page state the debug module reads and writes: the four DOM targets,
the process-wide slots under `window.App`, durable storage, and the
observable effect logs (toasts, clipboard writes, fetches). -/
structure AppState where
  debugModal : Option ModalEl
  debugInfoContent : Option ContentPane
  modelSelectMenuItem : Option MenuItem
  debugInfoMenuItem : Option MenuItem
  serverMode : Bool
  modelCurrent : Option String
  localStorage : List (String × String)
  lastApiCall : Option LastApiCall
  lastModelList : Option (List JValue)
  defaultPrompt : Option String
  showToastAvailable : Bool
  toasts : List String
  clipboardWrites : List String
  fetchLog : List String

/-- Model of the guarded toast call, a no-op when the page defines no toast helper. -/
def showToast (msg : String) (s : AppState) : AppState :=
  if s.showToastAvailable then { s with toasts := s.toasts ++ [msg] } else s

/-! ### The operations of `debug.js` -/

/-- Model of `recordApiCall(endpoint, method, request, response, error, status)`:
overwrite the last-call slot with a sanitized deep copy of both payloads. -/
def recordApiCall (now endpoint method : String) (request response : JValue)
    (error : Option String) (status : Option Int) (s : AppState) : AppState :=
  { s with lastApiCall := some {
      timestamp := now
      endpoint := endpoint
      method := method
      status := status
      error := error
      request := sanitizeValue request
      response := sanitizeValue response } }

/-- The stored record serialized back to JSON, field order as in the source
object literal. -/
def lastApiCallToJson (r : LastApiCall) : JValue :=
  .obj [("timestamp", .str r.timestamp),
        ("endpoint", .str r.endpoint),
        ("method", .str r.method),
        ("status", match r.status with | some n => .num n | none => .null),
        ("error", match r.error with | some e => .str e | none => .null),
        ("request", r.request),
        ("response", r.response)]

/-- Model of `copyLastApiCall()`; `clipboardOk` is whether the asynchronous
clipboard write succeeds. -/
def copyLastApiCall (clipboardOk : Bool) (s : AppState) : AppState :=
  match s.lastApiCall with
  | none => showToast "コピーする履歴がありません" s
  | some r =>
    let s1 := { s with clipboardWrites := s.clipboardWrites
                  ++ ["=== Memo AI Debug ===\n" ++ jsonStringify2 (lastApiCallToJson r)] }
    showToast (if clipboardOk then "コピーしました" else "コピー失敗") s1

/-- Model of `copyModelList()`; `clipboardOk` is whether the asynchronous
clipboard write succeeds. -/
def copyModelList (clipboardOk : Bool) (s : AppState) : AppState :=
  match s.lastModelList with
  | none => showToast "コピーするデータがありません" s
  | some l =>
    let s1 := { s with clipboardWrites := s.clipboardWrites
                  ++ [jsonStringify2 (.arr l)] }
    showToast (if clipboardOk then "モデルデータをコピーしました" else "コピー失敗") s1

/-- The timestamp line of the rendered debug HTML. -/
def debugTimestampHtml (t : Option String) : String :=
  "<div class=\"debug-timestamp\">取得時刻: " ++ jsStrOr t "N/A" ++ "</div>"

/-- The CORS section of the rendered debug HTML. -/
def corsSectionHtml (c : CorsInfo) : String :=
  "<div class=\"debug-section\">"
  ++ "<h3>🔐 CORS設定</h3><div class=\"debug-grid\">"
  ++ "<div class=\"debug-item\"><span class=\"debug-label\">許可オリジン:</span><code class=\"debug-value\">"
  ++ String.intercalate ", " c.allowed_origins ++ "</code></div>"
  ++ "<div class=\"debug-item\"><span class=\"debug-label\">制限モード:</span><span class=\"debug-value\">"
  ++ (if c.is_restricted then "✅ はい" else "❌ いいえ (全許可)") ++ "</span></div>"
  ++ (if jsStrTruthy c.detected_platform then
        "<div class=\"debug-item\"><span class=\"debug-label\">検出プラットフォーム:</span><span class=\"debug-value\">"
        ++ c.detected_platform.getD "" ++ "</span></div>"
      else "")
  ++ "</div></div>"

/-- The last-API-call section of the rendered debug HTML. -/
def apiSectionHtml (lastCall : Option LastApiCall) : String :=
  "<div class=\"debug-section\">"
  ++ "<h3>📡 最新API通信 <button class=\"btn-copy-debug\" onclick=\"window.copyLastApiCall()\">📋 コピー</button></h3>"
  ++ (match lastCall with
      | some r => "<pre class=\"debug-code\">" ++ escapeLt (jsonStringify2 (lastApiCallToJson r)) ++ "</pre>"
      | none => "<p class=\"debug-hint\">まだAPI通信がありません。</p>")
  ++ "</div>"

/-- The environment-info section of the rendered debug HTML. -/
def envSectionHtml (env : List (String × String)) : String :=
  "<div class=\"debug-section\"><h3>⚙️ 環境情報</h3><div class=\"debug-grid\">"
  ++ String.join (env.map fun kv =>
       "<div class=\"debug-item\"><span class=\"debug-label\">" ++ kv.1
       ++ ":</span><span class=\"debug-value\">" ++ kv.2 ++ "</span></div>")
  ++ "</div></div>"

/-- The environment-variables section of the rendered debug HTML. -/
def envVarsSectionHtml (vars : List (String × Option String)) : String :=
  "<div class=\"debug-section\"><h3>🔐 環境変数</h3><div class=\"debug-grid\">"
  ++ String.join (vars.map fun kv =>
       "<div class=\"debug-item\"><span class=\"debug-label\">" ++ kv.1
       ++ ":</span><code class=\"debug-value\">"
       ++ (if jsStrTruthy kv.2 then kv.2.getD "" else "null") ++ "</code></div>")
  ++ "</div></div>"

/-- The model-catalog section of the rendered debug HTML. -/
def modelsSectionHtml (m : ModelsInfo) : String :=
  "<div class=\"debug-section\">"
  ++ "<h3>📋 モデル一覧 (" ++ intToDec m.recommended_count ++ " 推奨 / "
  ++ intToDec m.total_count
  ++ " 全モデル) <button class=\"btn-copy-debug\" onclick=\"window.copyModelList()\">📋 コピー</button></h3>"
  ++ "<details style=\"margin-top: 8px;\">"
  ++ "<summary style=\"cursor: pointer; padding: 8px; background: var(--bg-secondary); border-radius: 4px;\">全モデル生データを表示...</summary>"
  ++ "<pre class=\"debug-code\" style=\"max-height: 400px; overflow: auto; margin-top: 8px;\">"
  ++ escapeLt (jsonStringify2 (.arr m.raw_list)) ++ "</pre>"
  ++ "</details>"
  ++ "</div>"

/-- The full HTML assembled by `renderDebugInfo`, in source order. -/
def renderDebugHtml (data : DebugSnapshot) (lastCall : Option LastApiCall) : String :=
  debugTimestampHtml data.timestamp
  ++ (match data.cors with | some c => corsSectionHtml c | none => "")
  ++ apiSectionHtml lastCall
  ++ envSectionHtml data.environment
  ++ (match data.env_vars with | some vs => envVarsSectionHtml vs | none => "")
  ++ (match data.models with | some m => modelsSectionHtml m | none => "")

/-- Model of `renderDebugInfo(data)`: no-op when the content container is absent;
otherwise stash the raw model list (when present) and replace the
container's `innerHTML` with the assembled HTML. -/
def renderDebugInfo (data : DebugSnapshot) (s : AppState) : AppState :=
  match s.debugInfoContent with
  | none => s
  | some _ =>
    let s1 := match data.models with
              | some m => { s with lastModelList := some m.raw_list }
              | none => s
    { s1 with debugInfoContent := some ⟨renderDebugHtml data s.lastApiCall⟩ }

/-- The loading indicator written before the fetch. -/
def loadingHtml : String :=
  "<div class=\"loading-indicator\"><div class=\"spinner\"></div><span>読み込み中...</span></div>"

/-- The error panel written by the catch branch of `loadDebugInfo`. -/
def errorPanelHtml (msg : String) : String :=
  "\n            <div class=\"debug-error\">\n                <h3>❌ デバッグ情報の取得に失敗</h3>\n                <p>"
  ++ msg
  ++ "</p>\n                <p class=\"debug-hint\">\n                    💡 ヒント: サーバーが起動しているか確認してください\n                </p>\n            </div>\n        "

/-- Model of `loadDebugInfo()`: no-op when the content container is absent; otherwise
write the loading indicator, fetch the debug endpoint once, and either
render the snapshot or render the error panel. -/
def loadDebugInfo (fr : FetchResult DebugSnapshot) (s : AppState) : AppState :=
  match s.debugInfoContent with
  | none => s
  | some _ =>
    let s1 := { s with debugInfoContent := some ⟨loadingHtml⟩ }
    let s2 := { s1 with fetchLog := s1.fetchLog ++ ["/api/debug5075378"] }
    match fr with
    | .success data => renderDebugInfo data s2
    | .httpError st tx =>
      { s2 with debugInfoContent := some ⟨errorPanelHtml ("HTTP " ++ natToDec st ++ ": " ++ tx)⟩ }
    | .netError msg =>
      { s2 with debugInfoContent := some ⟨errorPanelHtml msg⟩ }

/-- The TypeError message raised when the lookup of the debugModal element
returns null and its classList member is dereferenced. -/
def nullClassListError : String :=
  "TypeError: Cannot read properties of null (reading classList)"

/-- Model of `openDebugModal()`: unguarded dereference of the modal, then
`loadDebugInfo()`. -/
def openDebugModal (fr : FetchResult DebugSnapshot) (s : AppState) :
    Except String AppState :=
  match s.debugModal with
  | none => .error nullClassListError
  | some _ => .ok (loadDebugInfo fr { s with debugModal := some ⟨false⟩ })

/-- Model of `closeDebugModal()`: unguarded dereference of the modal. -/
def closeDebugModal (s : AppState) : Except String AppState :=
  match s.debugModal with
  | none => .error nullClassListError
  | some _ => .ok { s with debugModal := some ⟨true⟩ }

/-- Model of `updateDebugModeUI()`: gate the two menu elements on the debug flag;
on a false flag with the model-selection element present, also clear the
current model and remove the persisted selection key. -/
def updateDebugModeUI (s : AppState) : AppState :=
  let s1 :=
    match s.modelSelectMenuItem with
    | none => s
    | some _ =>
      if s.serverMode then { s with modelSelectMenuItem := some ⟨some ""⟩ }
      else
        { s with modelSelectMenuItem := some ⟨some "none"⟩
                 modelCurrent := none
                 localStorage := s.localStorage.filter
                   (fun kv => kv.1 != "memo_ai_selected_model") }
  match s1.debugInfoMenuItem with
  | none => s1
  | some _ =>
    if s1.serverMode then { s1 with debugInfoMenuItem := some ⟨some ""⟩ }
    else { s1 with debugInfoMenuItem := some ⟨some "none"⟩ }

/-- Model of `initializeDebugMode()`: fetch `/api/config` once; on a 2xx body set the
flag (and possibly the default prompt) and apply the UI gate; on a non-2xx
status return early; on a thrown error force the flag false and apply the
UI gate. -/
def initializeDebugMode (fr : FetchResult ConfigData) (s : AppState) : AppState :=
  let s0 := { s with fetchLog := s.fetchLog ++ ["/api/config"] }
  match fr with
  | .httpError _ _ => s0
  | .netError _ => updateDebugModeUI { s0 with serverMode := false }
  | .success data =>
    let s1 := { s0 with serverMode := data.debug_mode.getD false }
    let s2 := if jsStrTruthy data.default_system_prompt
              then { s1 with defaultPrompt := data.default_system_prompt }
              else s1
    updateDebugModeUI s2

/-- A fully populated page state used to instantiate witnesses. -/
def baseState : AppState where
  debugModal := some ⟨true⟩
  debugInfoContent := some ⟨""⟩
  modelSelectMenuItem := some ⟨none⟩
  debugInfoMenuItem := some ⟨none⟩
  serverMode := false
  modelCurrent := none
  localStorage := []
  lastApiCall := none
  lastModelList := none
  defaultPrompt := none
  showToastAvailable := true
  toasts := []
  clipboardWrites := []
  fetchLog := []

/-- A sample recorded call used to instantiate witnesses. -/
def sampleCall : LastApiCall where
  timestamp := "t"
  endpoint := "/api/chat"
  method := "POST"
  status := some 200
  error := none
  request := .obj []
  response := .obj []

/-- A sample CORS block used to instantiate witnesses. -/
def sampleCors : CorsInfo where
  allowed_origins := ["https://a.example", "https://b.example"]
  is_restricted := true
  detected_platform := none

/-- A sample debug snapshot (no CORS block) used to instantiate witnesses. -/
def sampleSnapshot : DebugSnapshot where
  timestamp := some "2024-01-01T00:00:00Z"
  cors := none
  environment := [("python_version", "3.11")]
  env_vars := none
  models := some { recommended_count := 1, total_count := 2,
                   raw_list := [.str "m1", .str "m2"] }

/-! ### Helper lemmas -/

theorem charToDigit_digitChar {d : Nat} (hd : d < 10) :
    charToDigit (digitChar d) = d := by
  interval_cases d <;> decide

theorem toDecDigits_lt10 (n : Nat) : ∀ d ∈ toDecDigits n, d < 10 := by
  induction n using Nat.strong_induction_on with
  | _ n ih =>
    rw [toDecDigits]
    split
    · intro d hd
      simp only [List.mem_singleton] at hd
      omega
    · intro d hd
      rcases List.mem_append.mp hd with h | h
      · exact ih (n / 10) (Nat.div_lt_self (by omega) (by omega)) d h
      · simp only [List.mem_singleton] at h
        omega

theorem ofDecDigits_append_single (ds : List Nat) (d : Nat) :
    ofDecDigits (ds ++ [d]) = 10 * ofDecDigits ds + d := by
  simp [ofDecDigits, List.foldl_append]

theorem ofDecDigits_toDecDigits (n : Nat) :
    ofDecDigits (toDecDigits n) = n := by
  induction n using Nat.strong_induction_on with
  | _ n ih =>
    rw [toDecDigits]
    split
    · simp [ofDecDigits]
    · rw [ofDecDigits_append_single, ih (n / 10) (Nat.div_lt_self (by omega) (by omega))]
      omega

theorem map_charToDigit_digitChar (ds : List Nat) (h : ∀ d ∈ ds, d < 10) :
    (ds.map digitChar).map charToDigit = ds := by
  induction ds with
  | nil => rfl
  | cons d ds ih =>
    simp only [List.map_cons, List.cons.injEq]
    refine ⟨charToDigit_digitChar (h d (by simp)), ih ?_⟩
    intro e he
    exact h e (by simp [he])

theorem decodeDec_natToDec (n : Nat) : decodeDec (natToDec n) = n := by
  unfold decodeDec natToDec
  rw [map_charToDigit_digitChar _ (toDecDigits_lt10 n)]
  exact ofDecDigits_toDecDigits n

theorem natToDec_injective : Function.Injective natToDec := by
  intro m n h
  have hm := decodeDec_natToDec m
  rw [h, decodeDec_natToDec] at hm
  omega

theorem imagePlaceholder_injective : Function.Injective imagePlaceholder := by
  intro m n h
  have hd := congrArg String.data h
  simp only [imagePlaceholder, String.data_append, List.append_assoc] at hd
  have h1 := List.append_cancel_left hd
  have h2 := List.append_cancel_right h1
  exact natToDec_injective (String.ext h2)

theorem sanitizeList_eq_map : ∀ xs, sanitizeList xs = xs.map sanitizeValue
  | [] => rfl
  | x :: xs => by
    simp only [sanitizeList, List.map_cons, List.cons.injEq, true_and]
    exact sanitizeList_eq_map xs

mutual

theorem sanitizeValue_id : (v : JValue) → hasImageStr v = false → sanitizeValue v = v
  | .null, _ => rfl
  | .bool _, _ => rfl
  | .num _, _ => rfl
  | .str _, _ => rfl
  | .arr xs, h => by
    have h' : hasImageStrList xs = false := by simpa [hasImageStr] using h
    simp only [sanitizeValue, JValue.arr.injEq]
    exact sanitizeList_id xs h'
  | .obj fs, h => by
    have h' : hasImageStrFields fs = false := by simpa [hasImageStr] using h
    simp only [sanitizeValue, JValue.obj.injEq]
    exact sanitizeFields_id fs h'

theorem sanitizeList_id :
    (xs : List JValue) → hasImageStrList xs = false → sanitizeList xs = xs
  | [], _ => rfl
  | x :: xs, h => by
    have hx : hasImageStr x = false ∧ hasImageStrList xs = false := by
      simpa [hasImageStrList, Bool.or_eq_false_iff] using h
    simp only [sanitizeList, List.cons.injEq]
    exact ⟨sanitizeValue_id x hx.1, sanitizeList_id xs hx.2⟩

theorem sanitizeFields_id :
    (fs : List (String × JValue)) → hasImageStrFields fs = false → sanitizeFields fs = fs
  | [], _ => rfl
  | (k, v) :: fs, h => by
    have h3 : ((k = "image_data" → isStrB v = false)
        ∧ hasImageStr v = false) ∧ hasImageStrFields fs = false := by
      simpa [hasImageStrFields, Bool.or_eq_false_iff] using h
    have htail := sanitizeFields_id fs h3.2
    have hv := sanitizeValue_id v h3.1.2
    cases v with
    | str s =>
      have hk : ¬ (k = "image_data") := fun hke => by
        simpa [isStrB] using h3.1.1 hke
      simp [sanitizeFields, hk, htail]
    | null => simp [sanitizeFields, hv, htail]
    | bool b => simp [sanitizeFields, hv, htail]
    | num n => simp [sanitizeFields, hv, htail]
    | arr xs => simp [sanitizeFields, hv, htail]
    | obj gs => simp [sanitizeFields, hv, htail]

end

/-! ### Claim C1 -/

/-- C1: `recordApiCall` deep-copies both payloads through the sanitizer;
the sanitizer rewrites every object field keyed `image_data` holding an
`N`-character string to the placeholder for `N` (a function of `N` alone,
and `N` is recoverable from it since the encoding is injective), recurses
through arrays and other object fields, and copies values containing no
such field unchanged. -/
theorem recordApiCall_sanitizes_image_fields :
    (∀ now ep meth req resp err st s,
      (recordApiCall now ep meth req resp err st s).lastApiCall =
        some { timestamp := now, endpoint := ep, method := meth, status := st,
               error := err, request := sanitizeValue req,
               response := sanitizeValue resp })
    ∧ (∀ k s fs, sanitizeFields ((k, JValue.str s) :: fs)
        = (k, JValue.str (if k = "image_data" then imagePlaceholder s.length else s))
          :: sanitizeFields fs)
    ∧ (∀ k v fs, (∀ t, v ≠ JValue.str t) →
        sanitizeFields ((k, v) :: fs) = (k, sanitizeValue v) :: sanitizeFields fs)
    ∧ (∀ xs, sanitizeValue (JValue.arr xs) = JValue.arr (xs.map sanitizeValue))
    ∧ Function.Injective imagePlaceholder
    ∧ (∀ v, hasImageStr v = false → sanitizeValue v = v) := by
  refine ⟨fun _ _ _ _ _ _ _ _ => rfl, ?_, ?_, ?_,
    imagePlaceholder_injective, sanitizeValue_id⟩
  · intro k s fs
    simp [sanitizeFields]
  · intro k v fs hv
    cases v with
    | str t => exact absurd rfl (hv t)
    | null => simp [sanitizeFields, sanitizeValue]
    | bool b => simp [sanitizeFields, sanitizeValue]
    | num n => simp [sanitizeFields, sanitizeValue]
    | arr xs => simp [sanitizeFields, sanitizeValue]
    | obj gs => simp [sanitizeFields, sanitizeValue]
  · intro xs
    simp only [sanitizeValue, JValue.arr.injEq]
    exact sanitizeList_eq_map xs

/-- Witness for C1 at concrete inputs: a non-string `image_data` field is
kept, the placeholder encoding is applied injectively, and a payload with
no image field is copied unchanged. -/
theorem recordApiCall_sanitizes_image_fields_witness :
    sanitizeFields [("image_data", JValue.num 3)] = [("image_data", JValue.num 3)]
    ∧ (2 : Nat) = 2
    ∧ sanitizeValue (JValue.obj [("text", JValue.str "hi")])
        = JValue.obj [("text", JValue.str "hi")] := by
  refine ⟨?_, ?_, ?_⟩
  · have := recordApiCall_sanitizes_image_fields.2.2.1 "image_data" (JValue.num 3) []
      (fun t h => JValue.noConfusion h)
    simpa using this
  · exact recordApiCall_sanitizes_image_fields.2.2.2.2.1 rfl
  · exact recordApiCall_sanitizes_image_fields.2.2.2.2.2 _ rfl

/-! ### More helper lemmas -/

theorem lookup_filter_ne (l : List (String × String)) (key : String) :
    (l.filter (fun kv => kv.1 != key)).lookup key = none := by
  induction l with
  | nil => rfl
  | cons kv l ih =>
    obtain ⟨k1, v1⟩ := kv
    by_cases h : k1 = key
    · simp [List.filter_cons, h, ih]
    · have hbe : (key == k1) = false := by
        simp [Ne.symm h]
      simp [List.filter_cons, List.lookup, h, hbe, ih]

/-! ### Claim C10 -/

/-- C10: the clearing side effects of a false debug flag (nulling the
current model and removing the persisted selection key) happen only when
the model-selection menu element exists; when it is absent, both the
in-memory slot and durable storage are untouched. -/
theorem updateDebugModeUI_model_clear_frame :
    (∀ s, s.modelSelectMenuItem = none →
      (updateDebugModeUI s).modelCurrent = s.modelCurrent
      ∧ (updateDebugModeUI s).localStorage = s.localStorage)
    ∧ (∀ s mi, s.modelSelectMenuItem = some mi → s.serverMode = false →
      (updateDebugModeUI s).modelCurrent = none
      ∧ (updateDebugModeUI s).localStorage
          = s.localStorage.filter (fun kv => kv.1 != "memo_ai_selected_model")) := by
  constructor
  · intro s h
    cases hd : s.debugInfoMenuItem with
    | none => simp [updateDebugModeUI, h, hd]
    | some di =>
      cases hs : s.serverMode <;> simp [updateDebugModeUI, h, hd, hs]
  · intro s mi h hs
    cases hd : s.debugInfoMenuItem <;>
      simp [updateDebugModeUI, h, hs, hd]

/-- Witness for C10: with the model-selection element removed from the base
state, the gate leaves the model slot and storage alone; with it present
and the flag false, both are cleared. -/
theorem updateDebugModeUI_model_clear_frame_witness :
    ((updateDebugModeUI { baseState with
        modelSelectMenuItem := none
        modelCurrent := some "m"
        localStorage := [("memo_ai_selected_model", "m")] }).modelCurrent = some "m"
      ∧ (updateDebugModeUI { baseState with
        modelSelectMenuItem := none
        modelCurrent := some "m"
        localStorage := [("memo_ai_selected_model", "m")] }).localStorage
          = [("memo_ai_selected_model", "m")])
    ∧ ((updateDebugModeUI { baseState with
        modelCurrent := some "m"
        localStorage := [("memo_ai_selected_model", "m")] }).modelCurrent = none
      ∧ (updateDebugModeUI { baseState with
        modelCurrent := some "m"
        localStorage := [("memo_ai_selected_model", "m")] }).localStorage
          = List.filter (fun kv => kv.1 != "memo_ai_selected_model")
              [("memo_ai_selected_model", "m")]) := by
  constructor
  · exact updateDebugModeUI_model_clear_frame.1 _ rfl
  · exact updateDebugModeUI_model_clear_frame.2 _ ⟨none⟩ rfl rfl

/-! ### Claim C2 (corrected) -/

/-- C2 as stated is false: on a non-2xx config response,
`initializeDebugMode` returns early, leaving a previously-true debug flag
true and the inline display of both gated elements untouched, with no UI-gating
pass applied. -/
theorem initializeDebugMode_httpError_counterexample :
    (initializeDebugMode (.httpError 500 "Internal Server Error")
      { baseState with
          serverMode := true
          modelSelectMenuItem := some ⟨some "x"⟩
          debugInfoMenuItem := some ⟨some "x"⟩ }).serverMode = true
    ∧ (initializeDebugMode (.httpError 500 "Internal Server Error")
      { baseState with
          serverMode := true
          modelSelectMenuItem := some ⟨some "x"⟩
          debugInfoMenuItem := some ⟨some "x"⟩ }).modelSelectMenuItem = some ⟨some "x"⟩
    ∧ (initializeDebugMode (.httpError 500 "Internal Server Error")
      { baseState with
          serverMode := true
          modelSelectMenuItem := some ⟨some "x"⟩
          debugInfoMenuItem := some ⟨some "x"⟩ }).debugInfoMenuItem = some ⟨some "x"⟩ := by
  exact ⟨rfl, rfl, rfl⟩

/-- C2 (amended): a thrown network/parse error forces the flag to false and
applies the UI gate, exactly the outcome of an explicit false flag; a
non-2xx HTTP status instead returns early, leaving the flag and every DOM
element untouched (only the fetch log records the attempt). -/
theorem initializeDebugMode_failure_paths :
    (∀ msg s, initializeDebugMode (.netError msg) s
        = updateDebugModeUI { s with
            serverMode := false
            fetchLog := s.fetchLog ++ ["/api/config"] })
    ∧ (∀ st tx s, initializeDebugMode (.httpError st tx) s
        = { s with fetchLog := s.fetchLog ++ ["/api/config"] }) := by
  exact ⟨fun _ _ => rfl, fun _ _ _ => rfl⟩

/-! ### Claim C3 -/

/-- C3: a config fetch answering a false debug flag hides both gated menu
elements, nulls the current model, and removes the persisted selection
key; a true flag restores the display of both elements to the empty string and
leaves durable storage unmutated. -/
theorem initializeDebugMode_gating :
    ∀ s dsp mi di, s.modelSelectMenuItem = some mi → s.debugInfoMenuItem = some di →
      ((initializeDebugMode (.success
          { debug_mode := some false, default_system_prompt := dsp }) s).modelSelectMenuItem
          = some ⟨some "none"⟩
        ∧ (initializeDebugMode (.success
          { debug_mode := some false, default_system_prompt := dsp }) s).debugInfoMenuItem
          = some ⟨some "none"⟩
        ∧ (initializeDebugMode (.success
          { debug_mode := some false, default_system_prompt := dsp }) s).modelCurrent = none
        ∧ (initializeDebugMode (.success
          { debug_mode := some false, default_system_prompt := dsp }) s).localStorage.lookup
            "memo_ai_selected_model" = none)
      ∧ ((initializeDebugMode (.success
          { debug_mode := some true, default_system_prompt := dsp }) s).modelSelectMenuItem
          = some ⟨some ""⟩
        ∧ (initializeDebugMode (.success
          { debug_mode := some true, default_system_prompt := dsp }) s).debugInfoMenuItem
          = some ⟨some ""⟩
        ∧ (initializeDebugMode (.success
          { debug_mode := some true, default_system_prompt := dsp }) s).localStorage
          = s.localStorage) := by
  intro s dsp mi di h1 h2
  cases hj : jsStrTruthy dsp <;>
    simp [initializeDebugMode, updateDebugModeUI, h1, h2, hj, lookup_filter_ne]

/-- Witness for C3: starting from a state with a selected model persisted
and both menu elements present, a false flag clears everything and a true
flag preserves storage. -/
theorem initializeDebugMode_gating_witness :
    ((initializeDebugMode (.success
        { debug_mode := some false, default_system_prompt := none })
        { baseState with
            serverMode := true
            modelCurrent := some "gpt"
            localStorage := [("memo_ai_selected_model", "gpt")] }).modelCurrent = none
      ∧ (initializeDebugMode (.success
        { debug_mode := some false, default_system_prompt := none })
        { baseState with
            serverMode := true
            modelCurrent := some "gpt"
            localStorage := [("memo_ai_selected_model", "gpt")] }).localStorage.lookup
          "memo_ai_selected_model" = none)
    ∧ (initializeDebugMode (.success
        { debug_mode := some true, default_system_prompt := none })
        { baseState with
            serverMode := true
            modelCurrent := some "gpt"
            localStorage := [("memo_ai_selected_model", "gpt")] }).localStorage
        = [("memo_ai_selected_model", "gpt")] := by
  have h := initializeDebugMode_gating
    { baseState with
        serverMode := true
        modelCurrent := some "gpt"
        localStorage := [("memo_ai_selected_model", "gpt")] }
    none ⟨none⟩ ⟨none⟩ rfl rfl
  exact ⟨⟨h.1.2.2.1, h.1.2.2.2⟩, h.2.2.2⟩

/-! ### Claim C4 (corrected) -/

/-- C4 as stated is false: `openDebugModal` dereferences the modal
container without a guard, so with the modal absent it raises a TypeError
instead of silently no-opping. -/
theorem openDebugModal_missing_modal_counterexample :
    openDebugModal (.netError "offline") { baseState with debugModal := none }
      = .error nullClassListError := rfl

/-- C4 (amended): loading, rendering and UI gating are silent no-ops for
each missing DOM target, and opening or closing the modal never throws
while the modal container exists; but with the modal container absent,
opening and closing both throw a TypeError. -/
theorem missing_dom_targets_behavior :
    (∀ fr s, s.debugInfoContent = none → loadDebugInfo fr s = s)
    ∧ (∀ d s, s.debugInfoContent = none → renderDebugInfo d s = s)
    ∧ (∀ s, s.modelSelectMenuItem = none → s.debugInfoMenuItem = none →
        updateDebugModeUI s = s)
    ∧ (∀ fr s m, s.debugModal = some m →
        openDebugModal fr s = .ok (loadDebugInfo fr { s with debugModal := some ⟨false⟩ }))
    ∧ (∀ s m, s.debugModal = some m →
        closeDebugModal s = .ok { s with debugModal := some ⟨true⟩ })
    ∧ (∀ fr s, s.debugModal = none → openDebugModal fr s = .error nullClassListError)
    ∧ (∀ s, s.debugModal = none → closeDebugModal s = .error nullClassListError) := by
  refine ⟨?_, ?_, ?_, ?_, ?_, ?_, ?_⟩
  · intro fr s h
    simp [loadDebugInfo, h]
  · intro d s h
    simp [renderDebugInfo, h]
  · intro s h1 h2
    simp [updateDebugModeUI, h1, h2]
  · intro fr s m h
    simp [openDebugModal, h]
  · intro s m h
    simp [closeDebugModal, h]
  · intro fr s h
    simp [openDebugModal, h]
  · intro s h
    simp [closeDebugModal, h]

/-- Witness for C4 (amended) at concrete states: every guarded operation
really no-ops and the unguarded pair really throws. -/
theorem missing_dom_targets_behavior_witness :
    loadDebugInfo (.netError "x") { baseState with debugInfoContent := none }
        = { baseState with debugInfoContent := none }
    ∧ updateDebugModeUI { baseState with
          modelSelectMenuItem := none
          debugInfoMenuItem := none }
        = { baseState with modelSelectMenuItem := none, debugInfoMenuItem := none }
    ∧ closeDebugModal baseState = .ok { baseState with debugModal := some ⟨true⟩ }
    ∧ closeDebugModal { baseState with debugModal := none } = .error nullClassListError := by
  refine ⟨?_, ?_, ?_, ?_⟩
  · exact missing_dom_targets_behavior.1 (.netError "x") _ rfl
  · exact missing_dom_targets_behavior.2.2.1 _ rfl rfl
  · exact missing_dom_targets_behavior.2.2.2.2.1 _ ⟨true⟩ rfl
  · exact missing_dom_targets_behavior.2.2.2.2.2.2 _ rfl

/-! ### Claim C5 -/

/-- C5: whenever the content container exists, a non-2xx status renders the
error panel built from `HTTP <status>: <statusText>`, a thrown error
renders the panel built from its message — in both cases the entire content
of the container is that panel, whatever was there before — and every
invocation (on any outcome) appends exactly one debug-endpoint fetch. -/
theorem loadDebugInfo_error_handling :
    ∀ s c, s.debugInfoContent = some c →
      (∀ st tx,
        (loadDebugInfo (.httpError st tx) s).debugInfoContent
          = some ⟨errorPanelHtml ("HTTP " ++ natToDec st ++ ": " ++ tx)⟩
        ∧ (loadDebugInfo (.httpError st tx) s).fetchLog
          = s.fetchLog ++ ["/api/debug5075378"])
      ∧ (∀ msg,
        (loadDebugInfo (.netError msg) s).debugInfoContent
          = some ⟨errorPanelHtml msg⟩
        ∧ (loadDebugInfo (.netError msg) s).fetchLog
          = s.fetchLog ++ ["/api/debug5075378"])
      ∧ (∀ d,
        (loadDebugInfo (.success d) s).fetchLog
          = s.fetchLog ++ ["/api/debug5075378"]) := by
  intro s c h
  refine ⟨?_, ?_, ?_⟩
  · intro st tx
    simp [loadDebugInfo, h]
  · intro msg
    simp [loadDebugInfo, h]
  · intro d
    cases hm : d.models <;>
      simp [loadDebugInfo, renderDebugInfo, h, hm]

/-- Witness for C5: a 500 response against the base state yields exactly
the error panel for `HTTP 500: Internal Server Error` and one logged
fetch. -/
theorem loadDebugInfo_error_handling_witness :
    (loadDebugInfo (.httpError 500 "Internal Server Error")
        { baseState with debugInfoContent := some ⟨"old content"⟩ }).debugInfoContent
      = some ⟨errorPanelHtml ("HTTP " ++ natToDec 500 ++ ": " ++ "Internal Server Error")⟩
    ∧ (loadDebugInfo (.httpError 500 "Internal Server Error")
        { baseState with debugInfoContent := some ⟨"old content"⟩ }).fetchLog
      = ["/api/debug5075378"] := by
  have h := loadDebugInfo_error_handling
    { baseState with debugInfoContent := some ⟨"old content"⟩ } ⟨"old content"⟩ rfl
  exact ⟨(h.1 500 "Internal Server Error").1, (h.1 500 "Internal Server Error").2⟩

/-! ### Claim C6 -/

/-- C6: exporting the last call with the slot empty only raises the
"nothing to copy" toast — the whole state is otherwise unchanged, so zero
clipboard writes happen and the slot stays empty; with the slot populated
it appends exactly one clipboard write, equal to the fixed banner line
followed by the pretty-printed JSON of the stored record, and leaves the
slot intact. -/
theorem copyLastApiCall_contract :
    (∀ s ok, s.lastApiCall = none → s.showToastAvailable = true →
      copyLastApiCall ok s = { s with toasts := s.toasts ++ ["コピーする履歴がありません"] })
    ∧ (∀ s ok r, s.lastApiCall = some r →
      (copyLastApiCall ok s).clipboardWrites
        = s.clipboardWrites
          ++ ["=== Memo AI Debug ===\n" ++ jsonStringify2 (lastApiCallToJson r)]
      ∧ (copyLastApiCall ok s).lastApiCall = some r) := by
  constructor
  · intro s ok h ht
    simp [copyLastApiCall, showToast, h, ht]
  · intro s ok r h
    simp [copyLastApiCall, showToast, h]
    cases ok <;> cases hts : s.showToastAvailable <;> simp [showToast, hts]

/-- Witness for C6: empty slot toasts without touching the clipboard;
populated slot produces the banner-prefixed JSON write. -/
theorem copyLastApiCall_contract_witness :
    copyLastApiCall true baseState
      = { baseState with toasts := ["コピーする履歴がありません"] }
    ∧ (copyLastApiCall true
        { baseState with lastApiCall := some sampleCall }).clipboardWrites
      = ["=== Memo AI Debug ===\n" ++ jsonStringify2 (lastApiCallToJson sampleCall)] := by
  constructor
  · exact copyLastApiCall_contract.1 baseState true rfl rfl
  · exact (copyLastApiCall_contract.2 _ true _ rfl).1

/-! ### Claim C7 -/

/-- C7: with the `cors` field absent the rendered HTML is exactly the
concatenation of the other sections, with no CORS section; with it
present, the CORS section appears in place and consists of the origins
joined by the separator `", "` and one of the two fixed restriction
labels (plus the optional platform row). -/
theorem renderDebugHtml_cors_section :
    (∀ data lastCall, data.cors = none →
      renderDebugHtml data lastCall
        = debugTimestampHtml data.timestamp
          ++ apiSectionHtml lastCall
          ++ envSectionHtml data.environment
          ++ (match data.env_vars with | some vs => envVarsSectionHtml vs | none => "")
          ++ (match data.models with | some m => modelsSectionHtml m | none => ""))
    ∧ (∀ data lastCall c, data.cors = some c →
      renderDebugHtml data lastCall
        = debugTimestampHtml data.timestamp
          ++ corsSectionHtml c
          ++ apiSectionHtml lastCall
          ++ envSectionHtml data.environment
          ++ (match data.env_vars with | some vs => envVarsSectionHtml vs | none => "")
          ++ (match data.models with | some m => modelsSectionHtml m | none => ""))
    ∧ (∀ c, corsSectionHtml c
        = "<div class=\"debug-section\"><h3>🔐 CORS設定</h3><div class=\"debug-grid\"><div class=\"debug-item\"><span class=\"debug-label\">許可オリジン:</span><code class=\"debug-value\">"
          ++ String.intercalate ", " c.allowed_origins
          ++ "</code></div><div class=\"debug-item\"><span class=\"debug-label\">制限モード:</span><span class=\"debug-value\">"
          ++ (if c.is_restricted then "✅ はい" else "❌ いいえ (全許可)")
          ++ ("</span></div>"
          ++ (if jsStrTruthy c.detected_platform then
               "<div class=\"debug-item\"><span class=\"debug-label\">検出プラットフォーム:</span><span class=\"debug-value\">"
               ++ c.detected_platform.getD "" ++ "</span></div>"
             else "")
          ++ "</div></div>")) := by
  refine ⟨?_, ?_, ?_⟩
  · intro data lastCall h
    simp [renderDebugHtml, h]
  · intro data lastCall c h
    simp [renderDebugHtml, h]
  · intro c
    simp only [corsSectionHtml, String.append_assoc]
    rfl

/-- Witness for C7: the sample snapshot without a CORS block renders with
no CORS section; adding the sample CORS block inserts a section joining
the two origins with `", "` under the restricted label. -/
theorem renderDebugHtml_cors_section_witness :
    renderDebugHtml sampleSnapshot none
      = debugTimestampHtml sampleSnapshot.timestamp
        ++ apiSectionHtml none
        ++ envSectionHtml sampleSnapshot.environment
        ++ ""
        ++ modelsSectionHtml { recommended_count := 1, total_count := 2,
                               raw_list := [.str "m1", .str "m2"] }
    ∧ renderDebugHtml { sampleSnapshot with cors := some sampleCors } none
      = debugTimestampHtml sampleSnapshot.timestamp
        ++ corsSectionHtml sampleCors
        ++ apiSectionHtml none
        ++ envSectionHtml sampleSnapshot.environment
        ++ ""
        ++ modelsSectionHtml { recommended_count := 1, total_count := 2,
                               raw_list := [.str "m1", .str "m2"] } := by
  constructor
  · have h := renderDebugHtml_cors_section.1 sampleSnapshot none rfl
    simpa [sampleSnapshot] using h
  · have h := renderDebugHtml_cors_section.2.1
      { sampleSnapshot with cors := some sampleCors } none sampleCors rfl
    simpa [sampleSnapshot] using h

/-! ### Claim C8 -/

set_option maxRecDepth 10000 in
/-- C8: the two JSON blocks of the rendered debug HTML are inserted only
after the `escapeLt` pass, and an `escapeLt`-processed string never
contains a `<` character, so neither block can open an HTML tag. -/
theorem json_blocks_escaped :
    (∀ s, '<' ∉ (escapeLt s).data)
    ∧ (∀ r, apiSectionHtml (some r)
        = "<div class=\"debug-section\"><h3>📡 最新API通信 <button class=\"btn-copy-debug\" onclick=\"window.copyLastApiCall()\">📋 コピー</button></h3><pre class=\"debug-code\">"
          ++ (escapeLt (jsonStringify2 (lastApiCallToJson r)) ++ "</pre></div>"))
    ∧ (∀ m, modelsSectionHtml m
        = "<div class=\"debug-section\"><h3>📋 モデル一覧 ("
          ++ (intToDec m.recommended_count
          ++ (" 推奨 / "
          ++ (intToDec m.total_count
          ++ (" 全モデル) <button class=\"btn-copy-debug\" onclick=\"window.copyModelList()\">📋 コピー</button></h3><details style=\"margin-top: 8px;\"><summary style=\"cursor: pointer; padding: 8px; background: var(--bg-secondary); border-radius: 4px;\">全モデル生データを表示...</summary><pre class=\"debug-code\" style=\"max-height: 400px; overflow: auto; margin-top: 8px;\">"
          ++ (escapeLt (jsonStringify2 (.arr m.raw_list))
          ++ "</pre></details></div>")))))) := by
  refine ⟨?_, ?_, ?_⟩
  · intro s
    show '<' ∉ (List.map _ s.data).flatten
    induction s.data with
    | nil => simp
    | cons c l ih =>
      simp only [List.map_cons, List.flatten_cons, List.mem_append]
      rintro (h | h)
      · by_cases hc : c = '<'
        · rw [hc] at h
          simp at h
        · rw [if_neg hc] at h
          simp at h
          exact hc h.symm
      · exact ih h
  · intro r
    simp only [apiSectionHtml, String.append_assoc]
    rfl
  · intro m
    simp only [modelsSectionHtml, String.append_assoc]
    rfl

/-- Witness for C8 at concrete inputs: an escaped string with a `<` and the
section rendered for the sample recorded call. -/
theorem json_blocks_escaped_witness :
    '<' ∉ (escapeLt "a<b").data
    ∧ apiSectionHtml (some sampleCall)
      = "<div class=\"debug-section\"><h3>📡 最新API通信 <button class=\"btn-copy-debug\" onclick=\"window.copyLastApiCall()\">📋 コピー</button></h3><pre class=\"debug-code\">"
        ++ (escapeLt (jsonStringify2 (lastApiCallToJson sampleCall)) ++ "</pre></div>") := by
  exact ⟨json_blocks_escaped.1 "a<b", json_blocks_escaped.2.1 sampleCall⟩

/-! ### Claim C9 -/

/-- C9: whenever a rendered snapshot carries a `models` field, its raw list
is stashed in the process-wide slot unconditionally (the rendered
disclosure element has no bearing), and a subsequent model-list clipboard
export writes exactly the pretty-printed JSON of that list. -/
theorem renderDebugInfo_stashes_models :
    ∀ data m s c, data.models = some m → s.debugInfoContent = some c →
      (renderDebugInfo data s).lastModelList = some m.raw_list
      ∧ ∀ ok, (copyModelList ok (renderDebugInfo data s)).clipboardWrites
          = (renderDebugInfo data s).clipboardWrites
            ++ [jsonStringify2 (.arr m.raw_list)] := by
  intro data m s c h1 h2
  have hst : (renderDebugInfo data s).lastModelList = some m.raw_list := by
    simp [renderDebugInfo, h1, h2]
  refine ⟨hst, ?_⟩
  intro ok
  cases hts : (renderDebugInfo data s).showToastAvailable <;>
    simp [copyModelList, hst, showToast, hts]

/-- Witness for C9: rendering the sample snapshot stashes its two-model raw
list, and the export writes its JSON. -/
theorem renderDebugInfo_stashes_models_witness :
    (renderDebugInfo sampleSnapshot baseState).lastModelList
      = some [.str "m1", .str "m2"]
    ∧ (copyModelList true (renderDebugInfo sampleSnapshot baseState)).clipboardWrites
      = (renderDebugInfo sampleSnapshot baseState).clipboardWrites
        ++ [jsonStringify2 (.arr [.str "m1", .str "m2"])] := by
  have h := renderDebugInfo_stashes_models sampleSnapshot
    { recommended_count := 1, total_count := 2, raw_list := [.str "m1", .str "m2"] }
    baseState ⟨""⟩ rfl rfl
  exact ⟨h.1, h.2 true⟩

end MemoAi
